import Mathlib

/-!
# hidd: the Bluetooth HID daemon (`hidd/main.c`)

A shallow embedding of the connection-pairing code of `hidd/main.c`.

The C code is a sequence of system and library calls.  Every call is
recorded, in program order, in a `Trace`; what a call returns is read from an
environment `Env`, whose oracles may depend on the whole history of calls made
so far.  A function of the program that can terminate the process with
`exit` returns an `Outcome`; the others return their C result.  Machine
`int`s are modelled by `Int`.
-/

namespace Hidd

/-! ## Data model -/

/-- A Bluetooth device address (`bdaddr_t` of `bluetooth/bluetooth.h`, six
bytes), represented by its 48-bit value. -/
structure bdaddr_t where
  b : Nat
deriving DecidableEq, Repr

/-- The wildcard address `BDADDR_ANY`. -/
def BDADDR_ANY : bdaddr_t := ⟨0⟩

/-- The L2CAP socket address `struct sockaddr_l2`. -/
structure sockaddr_l2 where
  l2_family : Nat
  l2_psm : Nat
  l2_bdaddr : bdaddr_t
deriving DecidableEq, Repr

/-- The result of `memset(&addr, 0, sizeof(addr))`. -/
def sockaddr_l2_zero : sockaddr_l2 := ⟨0, 0, ⟨0⟩⟩

/-- The request record `struct hidp_connadd_req` of `bluetooth/hidp.h`.
`rd_data` is a pointer: `none` is `NULL`. -/
structure hidp_connadd_req where
  ctrl_sock : Int
  intr_sock : Int
  parser : Nat
  rd_size : Nat
  rd_data : Option (List Nat)
  country : Nat
  subclass : Nat
  vendor : Nat
  product : Nat
  version : Nat
  flags : Nat
  idle_to : Nat
  name : String
deriving DecidableEq, Repr

/-- The result of `memset(&req, 0, sizeof(req))`. -/
def hidp_connadd_req_zero : hidp_connadd_req :=
  { ctrl_sock := 0, intr_sock := 0, parser := 0, rd_size := 0, rd_data := none,
    country := 0, subclass := 0, vendor := 0, product := 0, version := 0,
    flags := 0, idle_to := 0, name := "" }

/-- One inquiry response (`inquiry_info` of `bluetooth/hci.h`): the fields
the program reads. -/
structure inquiry_info where
  bdaddr : bdaddr_t
  dev_class : Fin 3 → Nat

/-- An argument of a formatted message. -/
inductive Arg where
  | int (i : Int)
  | str (s : String)
  | bda (a : bdaddr_t)
  | strerror (errnum : Int)
deriving DecidableEq, Repr

/-- The option value handed to `setsockopt`. -/
inductive OptVal where
  | l2cap_options (imtu omtu flush_to : Nat)
  | lm (v : Nat)
deriving DecidableEq, Repr

/-! ## Constants of the system headers -/

def AF_BLUETOOTH : Nat := 31
def PF_BLUETOOTH : Nat := 31
def SOCK_RAW : Nat := 3
def SOCK_SEQPACKET : Nat := 5
def BTPROTO_L2CAP : Nat := 0
def BTPROTO_HIDP : Nat := 6
def SOL_L2CAP : Nat := 6
def L2CAP_OPTIONS : Nat := 1
def L2CAP_LM : Nat := 3
def L2CAP_LM_MASTER : Nat := 1
def L2CAP_PSM_HIDP_CTRL : Nat := 0x11
def L2CAP_PSM_HIDP_INTR : Nat := 0x13
def HIDP_DEFAULT_MTU : Nat := 48
def POLLIN : Nat := 0x001
def POLLERR : Nat := 0x008
def POLLHUP : Nat := 0x010
def LOG_ERR : Nat := 3
def LOG_INFO : Nat := 6
def SIGHUP : Nat := 1
def SIGINT : Nat := 2
def SIGPIPE : Nat := 13
def SIGTERM : Nat := 15
def SIGCHLD : Nat := 17

/-- Host to Bluetooth byte order for a 16-bit value (the identity on a
little-endian host). -/
def htobs (x : Nat) : Nat := x

/-- The installed handler of a `sigaction` call. -/
inductive Handler where
  | sig_hup
  | sig_term
  | SIG_IGN
deriving DecidableEq, Repr

/-! ## Calls and traces -/

/-- One call made by the program, with its arguments.  `accept` also records
what the call returned (the new descriptor and the peer address), and the
three `call_*` events mark the entry into a function of the program. -/
inductive Event where
  | socket (domain type protocol : Nat)
  | bind (sk : Int) (addr : sockaddr_l2)
  | setsockopt (sk : Int) (level optname : Nat) (optval : OptVal)
  | connect (sk : Int) (addr : sockaddr_l2)
  | listen (sk : Int) (backlog : Int)
  | accept (sk : Int) (nsk : Int) (peer : sockaddr_l2)
  | close (fd : Int)
  | getsockname (sk : Int)
  | getpeername (sk : Int)
  | get_hid_device_info (src dst : bdaddr_t) (req : hidp_connadd_req)
  | ioctl_HIDPCONNADD (ctl : Int) (req : hidp_connadd_req)
  | free_rd_data
  | free_info
  | poll (fd0 fd1 : Int) (events0 events1 : Nat) (timeout : Int)
  | read_io_canceled
  | syslog (priority : Nat) (fmt : String) (args : List Arg)
  | perror (s : String)
  | printf (fmt : String) (args : List Arg)
  | fprintf_stderr (fmt : String) (args : List Arg)
  | sleep (seconds : Nat)
  | hci_devid (addr : bdaddr_t)
  | hci_get_route
  | hci_devba (dev_id : Int)
  | hci_inquiry (dev_id len num_rsp flags : Int)
  | fork
  | open_dev_null
  | dup2 (oldfd newfd : Int)
  | setsid
  | chdir (path : String)
  | openlog (ident : String) (perror_too : Bool)
  | sigaction (sig : Nat) (h : Handler)
  | usage
  | call_l2cap_connect (src dst : bdaddr_t) (psm : Nat)
  | call_create_device (ctl csk isk timeout : Int)
  | call_do_connect (ctl : Int) (src dst : bdaddr_t) (timeout : Int)
deriving DecidableEq, Repr

/-- The calls made so far, oldest first. -/
abbrev Trace := List Event

/-- The environment: what each call returns, given the calls made before
it. -/
structure Env where
  socket : Trace → Nat → Nat → Nat → Int
  bind : Trace → Int → sockaddr_l2 → Int
  connect : Trace → Int → sockaddr_l2 → Int
  listen : Trace → Int → Int → Int
  accept : Trace → Int → Int × sockaddr_l2
  getsockname : Trace → Int → Int × sockaddr_l2
  getpeername : Trace → Int → Int × sockaddr_l2
  get_hid_device_info : Trace → bdaddr_t → bdaddr_t → hidp_connadd_req → Int × hidp_connadd_req
  ioctl_HIDPCONNADD : Trace → Int → hidp_connadd_req → Int
  poll : Trace → Int → Int → Int × Nat × Nat
  io_canceled : Trace → Bool
  errno : Trace → Int
  hci_devid : Trace → bdaddr_t → Int
  hci_get_route : Trace → Int
  hci_devba : Trace → Int → bdaddr_t
  hci_inquiry : Trace → Int → Int → Int → Int → Int × (Nat → inquiry_info)
  fork : Trace → Int
  open_dev_null : Trace → Int

/-- How a function that may call `exit` ends. -/
inductive Outcome (α : Type) where
  | ret (a : α)
  | exit (status : Int)
deriving DecidableEq, Repr

/-! ## Machine arithmetic -/

/-- The value of an `int` expression, wrapped to 32 bits two's complement. -/
def to_int32 (x : Int) : Int := (x + 2 ^ 31) % 2 ^ 32 - 2 ^ 31

/-- Conversion of an `int` to `uint32_t`. -/
def to_uint32 (x : Int) : Nat := (x % 2 ^ 32).toNat

/-! ## The program -/

/-- The function `l2cap_connect` (main.c:66-100). -/
def l2cap_connect (env : Env) (src dst : bdaddr_t) (psm : Nat) (t : Trace) : Int × Trace :=
  let t := t ++ [Event.call_l2cap_connect src dst psm]
  let sk := env.socket t PF_BLUETOOTH SOCK_SEQPACKET BTPROTO_L2CAP
  let t := t ++ [Event.socket PF_BLUETOOTH SOCK_SEQPACKET BTPROTO_L2CAP]
  if sk < 0 then (-1, t) else
  let addr : sockaddr_l2 := ⟨AF_BLUETOOTH, 0, src⟩
  let r := env.bind t sk addr
  let t := t ++ [Event.bind sk addr]
  if r < 0 then (-1, t ++ [Event.close sk]) else
  let t := t ++ [Event.setsockopt sk SOL_L2CAP L2CAP_OPTIONS
    (OptVal.l2cap_options HIDP_DEFAULT_MTU HIDP_DEFAULT_MTU 0xffff)]
  let addr : sockaddr_l2 := ⟨AF_BLUETOOTH, htobs psm, dst⟩
  let r := env.connect t sk addr
  let t := t ++ [Event.connect sk addr]
  if r < 0 then (-1, t ++ [Event.close sk]) else
  (sk, t)

/-- The function `l2cap_listen` (main.c:102-134). -/
def l2cap_listen (env : Env) (bdaddr : bdaddr_t) (psm : Nat) (backlog : Int) (t : Trace) :
    Int × Trace :=
  let sk := env.socket t PF_BLUETOOTH SOCK_SEQPACKET BTPROTO_L2CAP
  let t := t ++ [Event.socket PF_BLUETOOTH SOCK_SEQPACKET BTPROTO_L2CAP]
  if sk < 0 then (-1, t) else
  let addr : sockaddr_l2 := ⟨AF_BLUETOOTH, htobs psm, bdaddr⟩
  let r := env.bind t sk addr
  let t := t ++ [Event.bind sk addr]
  if r < 0 then (-1, t ++ [Event.close sk]) else
  let t := t ++ [Event.setsockopt sk SOL_L2CAP L2CAP_LM (OptVal.lm L2CAP_LM_MASTER)]
  let t := t ++ [Event.setsockopt sk SOL_L2CAP L2CAP_OPTIONS
    (OptVal.l2cap_options HIDP_DEFAULT_MTU HIDP_DEFAULT_MTU 0xffff)]
  let r := env.listen t sk backlog
  let t := t ++ [Event.listen sk backlog]
  if r < 0 then (-1, t ++ [Event.close sk]) else
  (sk, t)

/-- The function `l2cap_accept` (main.c:136-152).  `want_bdaddr` says whether the
`bdaddr` argument is non-`NULL`; the second component is what is then copied
into it. -/
def l2cap_accept (env : Env) (sk : Int) (want_bdaddr : Bool) (t : Trace) :
    (Int × Option bdaddr_t) × Trace :=
  let r := env.accept t sk
  let nsk := r.1
  let addr := r.2
  let t := t ++ [Event.accept sk nsk addr]
  if nsk < 0 then ((-1, none), t) else
  if want_bdaddr then ((nsk, some addr.l2_bdaddr), t) else
  ((nsk, none), t)

/-- The record `create_device` builds at main.c:179-183. -/
def create_device_req (csk isk timeout : Int) : hidp_connadd_req :=
  { hidp_connadd_req_zero with
    ctrl_sock := csk
    intr_sock := isk
    flags := 0
    idle_to := to_uint32 (to_int32 (timeout * 60)) }

/-- The function `create_device` (main.c:154-198). -/
def create_device (env : Env) (ctl csk isk timeout : Int) (t : Trace) : Int × Trace :=
  let t := t ++ [Event.call_create_device ctl csk isk timeout]
  let r := env.getsockname t csk
  let t := t ++ [Event.getsockname csk]
  if r.1 < 0 then (-1, t) else
  let src := r.2.l2_bdaddr
  let r := env.getpeername t csk
  let t := t ++ [Event.getpeername csk]
  if r.1 < 0 then (-1, t) else
  let dst := r.2.l2_bdaddr
  let req := create_device_req csk isk timeout
  let r := env.get_hid_device_info t src dst req
  let t := t ++ [Event.get_hid_device_info src dst req]
  let err := r.1
  let req := r.2
  if err < 0 then (err, t) else
  let t := t ++ [Event.syslog LOG_INFO "New HID device %s (%s)" [Arg.bda dst, Arg.str req.name]]
  let err := env.ioctl_HIDPCONNADD t ctl req
  let t := t ++ [Event.ioctl_HIDPCONNADD ctl req]
  let t := if req.rd_data.isSome then t ++ [Event.free_rd_data] else t
  (err, t)

/-- The block of `run_server` run when `POLLIN` is reported
(main.c:223-232): both accepts, `create_device`, both closes. -/
def run_server_pollin (env : Env) (ctl csk isk timeout : Int) (t : Trace) : Trace :=
  let a := l2cap_accept env csk false t
  let ncsk := a.1.1
  let t := a.2
  let a := l2cap_accept env isk false t
  let nisk := a.1.1
  let t := a.2
  let c := create_device env ctl ncsk nisk timeout t
  let err := c.1
  let t := c.2
  let t := if err < 0 then
      t ++ [Event.syslog LOG_ERR "HID create error %d (%s)"
        [Arg.int (env.errno t), Arg.strerror (env.errno t)]]
    else t
  t ++ [Event.close ncsk, Event.close nisk]

/-- The `poll` call of `run_server` (main.c:216) on the two listening
sockets, with a wait of 100 ms. -/
def poll_call (csk isk : Int) : Event :=
  Event.poll csk isk (POLLIN ||| POLLERR ||| POLLHUP) (POLLIN ||| POLLERR ||| POLLHUP) 100

/-- One pass through the body of the `while` loop of `run_server`
(main.c:213-233), from the reset of `revents` to the end of the body. -/
def run_server_body (env : Env) (ctl csk isk timeout : Int) (t : Trace) : Trace :=
  let r := env.poll t csk isk
  let t := t ++ [poll_call csk isk]
  let err := r.1
  if err ≤ 0 then t else
  let events := r.2.1 ||| r.2.2
  if events &&& POLLIN ≠ 0 then run_server_pollin env ctl csk isk timeout t
  else t

/-- The function `run_server` (main.c:200-235).  The loop runs until the flag
`__io_canceled`, set by a signal handler, is read as set; `fuel` bounds the
number of times the flag is read, and `none` means the bound was reached. -/
def run_server (env : Env) (ctl csk isk timeout : Int) : Nat → Trace → Option Trace
  | 0, _ => none
  | fuel + 1, t =>
    let c := env.io_canceled t
    let t := t ++ [Event.read_io_canceled]
    if c then some t else run_server env ctl csk isk timeout fuel
      (run_server_body env ctl csk isk timeout t)

/-- The function `do_connect` (main.c:237-266). -/
def do_connect (env : Env) (ctl : Int) (src dst : bdaddr_t) (timeout : Int) (t : Trace) :
    Outcome Unit × Trace :=
  let t := t ++ [Event.call_do_connect ctl src dst timeout]
  let r := l2cap_connect env src dst L2CAP_PSM_HIDP_CTRL t
  let csk := r.1
  let t := r.2
  if csk < 0 then
    (Outcome.exit 1, t ++ [Event.perror "Can't create HID control channel", Event.close ctl])
  else
  let r := l2cap_connect env src dst L2CAP_PSM_HIDP_INTR t
  let isk := r.1
  let t := r.2
  if isk < 0 then
    (Outcome.exit 1, t ++ [Event.perror "Can't create HID interrupt channel",
      Event.close csk, Event.close ctl])
  else
  let r := create_device env ctl csk isk timeout t
  let err := r.1
  let t := r.2
  if err < 0 then
    (Outcome.exit 1, t ++ [Event.fprintf_stderr "HID create error %d (%s)\n"
      [Arg.int (env.errno t), Arg.strerror (env.errno t)],
      Event.close isk, Event.sleep 1, Event.close csk, Event.close ctl])
  else (Outcome.ret (), t)

/-- The test of main.c:294 on the device class of an inquiry response. -/
def is_hid_class (e : inquiry_info) : Bool :=
  e.dev_class 1 == 0x25 && e.dev_class 2 == 0x00

/-- The `for` loop of `do_search` (main.c:292-301) over the inquiry
responses `info[i]`, `i < num_rsp`, that are still to be visited. -/
def do_search_loop (env : Env) (ctl : Int) (src : bdaddr_t) (timeout : Int) :
    List inquiry_info → Trace → Outcome Unit × Trace
  | [], t => (Outcome.ret (), t)
  | e :: rest, t =>
    if is_hid_class e then
      let dst := e.bdaddr
      let t := t ++ [Event.printf "\tConnecting to device %s\n" [Arg.bda dst]]
      match do_connect env ctl src dst timeout t with
      | (Outcome.exit c, t) => (Outcome.exit c, t)
      | (Outcome.ret _, t) => do_search_loop env ctl src timeout rest t
    else do_search_loop env ctl src timeout rest t

/-- The inquiry responses `info[0]`, ..., `info[num_rsp - 1]` the loop of
`do_search` visits (none when `num_rsp` is not positive). -/
def scan_results (num_rsp : Int) (info : Nat → inquiry_info) : List inquiry_info :=
  (List.range num_rsp.toNat).map info

/-- The choice of the local adapter at the start of `do_search`
(main.c:276-282): the device id, the source address `src` and the trace. -/
def do_search_route (env : Env) (bdaddr : bdaddr_t) (t : Trace) : Int × bdaddr_t × Trace :=
  let d := env.hci_devid t bdaddr
  let t := t ++ [Event.hci_devid bdaddr]
  if d < 0 then
    let d := env.hci_get_route t
    let t := t ++ [Event.hci_get_route]
    (d, env.hci_devba t d, t ++ [Event.hci_devba d])
  else (d, bdaddr, t)

/-- The start of `do_search` up to the inquiry (main.c:276-290): the
number of responses `num_rsp`, the response array `info`, the source address
`src` and the trace. -/
def do_search_inquiry (env : Env) (bdaddr : bdaddr_t) (t : Trace) :
    Int × (Nat → inquiry_info) × bdaddr_t × Trace :=
  let p := do_search_route env bdaddr t
  let dev_id := p.1
  let src := p.2.1
  let t := p.2.2
  let t := t ++ [Event.printf "Searching ...\n" []]
  let r := env.hci_inquiry t dev_id 8 0 0
  (r.1, r.2, src, t ++ [Event.hci_inquiry dev_id 8 0 0])

/-- The function `do_search` (main.c:268-310). -/
def do_search (env : Env) (ctl : Int) (bdaddr : bdaddr_t) (timeout : Int) (t : Trace) :
    Outcome Unit × Trace :=
  let q := do_search_inquiry env bdaddr t
  let num_rsp := q.1
  let info := q.2.1
  let src := q.2.2.1
  let t := q.2.2.2
  match do_search_loop env ctl src timeout (scan_results num_rsp info) t with
  | (Outcome.exit c, t) => (Outcome.exit c, t)
  | (Outcome.ret _, t) =>
    let t := t ++ [Event.free_info]
    if num_rsp = 0 then
      (Outcome.exit 1, t ++ [Event.fprintf_stderr "\tNo devices in range or visible\n" [],
        Event.close ctl])
    else (Outcome.ret (), t)

/-- The server branch of `main` once both listening sockets are open
(main.c:430-471). -/
def main_server (env : Env) (daemon : Int) (timeout : Int) (bdaddr : bdaddr_t)
    (ctl csk isk : Int) (fuel : Nat) (t : Trace) : Option (Outcome Int × Trace) :=
  let pid := if daemon ≠ 0 then env.fork t else 0
  let t := if daemon ≠ 0 then t ++ [Event.fork] else t
  if daemon ≠ 0 ∧ pid ≠ 0 then some (Outcome.exit 0, t) else
  let t :=
    if daemon ≠ 0 then
      let fd := env.open_dev_null t
      t ++ [Event.open_dev_null, Event.dup2 fd 0, Event.dup2 fd 1, Event.dup2 fd 2,
        Event.close fd, Event.setsid, Event.chdir "/"]
    else t
  let t := t ++ [Event.openlog "hidd" (decide (daemon = 0))]
  let t :=
    if bdaddr ≠ BDADDR_ANY then
      t ++ [Event.syslog LOG_INFO "Bluetooth HID daemon (%s)" [Arg.bda bdaddr]]
    else t ++ [Event.syslog LOG_INFO "Bluetooth HID daemon" []]
  let t := t ++ [Event.sigaction SIGTERM Handler.sig_term,
    Event.sigaction SIGINT Handler.sig_term, Event.sigaction SIGHUP Handler.sig_hup,
    Event.sigaction SIGCHLD Handler.SIG_IGN, Event.sigaction SIGPIPE Handler.SIG_IGN]
  match run_server env ctl csk isk timeout fuel t with
  | none => none
  | some t =>
    some (Outcome.ret 0, t ++ [Event.syslog LOG_INFO "Exit" [], Event.close csk,
      Event.close isk, Event.close ctl])

/-- The function `main` from main.c:389 on, after the option loop has set `mode`,
`daemon`, `timeout`, `bdaddr` and `dev`.  `fuel` bounds the server loop
(see `run_server`). -/
def main_after_options (env : Env) (mode daemon timeout : Int) (bdaddr dev : bdaddr_t)
    (fuel : Nat) (t : Trace) : Option (Outcome Int × Trace) :=
  let ctl := env.socket t AF_BLUETOOTH SOCK_RAW BTPROTO_HIDP
  let t := t ++ [Event.socket AF_BLUETOOTH SOCK_RAW BTPROTO_HIDP]
  if ctl < 0 then some (Outcome.exit 1, t ++ [Event.perror "Can't open HIDP control socket"])
  else if mode = 1 then
    let r := l2cap_listen env bdaddr L2CAP_PSM_HIDP_CTRL 10 t
    let csk := r.1
    let t := r.2
    if csk < 0 then
      some (Outcome.exit 1, t ++ [Event.perror "Can't listen on HID control channel",
        Event.close ctl])
    else
    let r := l2cap_listen env bdaddr L2CAP_PSM_HIDP_INTR 10 t
    let isk := r.1
    let t := r.2
    if isk < 0 then
      some (Outcome.exit 1, t ++ [Event.perror "Can't listen on HID interrupt channel",
        Event.close ctl, Event.close csk])
    else main_server env daemon timeout bdaddr ctl csk isk fuel t
  else if mode = 2 then
    match do_search env ctl bdaddr timeout t with
    | (Outcome.exit c, t) => some (Outcome.exit c, t)
    | (Outcome.ret _, t) => some (Outcome.exit 0, t ++ [Event.close ctl])
  else if mode = 3 then
    match do_connect env ctl bdaddr dev timeout t with
    | (Outcome.exit c, t) => some (Outcome.exit c, t)
    | (Outcome.ret _, t) => some (Outcome.exit 0, t ++ [Event.close ctl])
  else some (Outcome.exit 1, t ++ [Event.usage])

/-- One option of the command line as `getopt_long` returns it with the
option string `"+i:nt:dsc:h"`, its argument already converted (`atoi`,
`str2ba`): `-i hciN`, `-i bdaddr`, `-n`, `-t timeout`, `-d`, `-s`,
`-c bdaddr`, `-h`, and any other return value. -/
inductive Opt where
  | i_hci (dev_id : Int)
  | i_bdaddr (a : bdaddr_t)
  | n
  | t (timeout : Int)
  | d
  | s
  | c (a : bdaddr_t)
  | h
  | other
deriving DecidableEq, Repr

/-- The variables of `main` the option loop sets. -/
structure Options where
  mode : Int
  daemon : Int
  timeout : Int
  bdaddr : bdaddr_t
  dev : bdaddr_t
deriving DecidableEq, Repr

/-- The option loop of `main` (main.c:357-387). -/
def main_options (env : Env) : List Opt → Options → Trace → Outcome Options × Trace
  | [], o, t => (Outcome.ret o, t)
  | Opt.i_hci dev_id :: rest, o, t =>
    main_options env rest { o with bdaddr := env.hci_devba t dev_id }
      (t ++ [Event.hci_devba dev_id])
  | Opt.i_bdaddr a :: rest, o, t => main_options env rest { o with bdaddr := a } t
  | Opt.n :: rest, o, t => main_options env rest { o with daemon := 0 } t
  | Opt.t timeout :: rest, o, t => main_options env rest { o with timeout := timeout } t
  | Opt.d :: rest, o, t => main_options env rest { o with mode := 1 } t
  | Opt.s :: rest, o, t => main_options env rest { o with mode := 2 } t
  | Opt.c a :: rest, o, t => main_options env rest { o with dev := a, mode := 3 } t
  | Opt.h :: _, _, t => (Outcome.exit 0, t ++ [Event.usage])
  | Opt.other :: _, _, t => (Outcome.exit 0, t)

/-- The function `main` (main.c:346-472) on the options of the command
line.  The variable `dev`, not initialised in the source, starts as
`BDADDR_ANY`; it is read only in mode 3, which `-c` sets together with it.
`fuel` bounds the server loop (see `run_server`). -/
def main (env : Env) (opts : List Opt) (fuel : Nat) (t : Trace) :
    Option (Outcome Int × Trace) :=
  match main_options env opts
    { mode := 0, daemon := 1, timeout := 30, bdaddr := BDADDR_ANY, dev := BDADDR_ANY } t with
  | (Outcome.exit c, t) => some (Outcome.exit c, t)
  | (Outcome.ret o, t) => main_after_options env o.mode o.daemon o.timeout o.bdaddr o.dev fuel t

/-! ## Observations on traces -/

/-- The events a run added to the trace `t` it started from. -/
def new_events (t t' : Trace) : Trace := t'.drop t.length

/-- The remote addresses of the `do_connect` calls of a trace, in order. -/
def connect_targets (t : Trace) : List bdaddr_t :=
  t.filterMap fun e =>
    match e with
    | Event.call_do_connect _ _ dst _ => some dst
    | _ => none

/-- The events `l2cap_connect` can add. -/
def is_l2cap_connect_event : Event → Bool
  | Event.call_l2cap_connect _ _ _ => true
  | Event.socket _ _ _ => true
  | Event.bind _ _ => true
  | Event.setsockopt _ _ _ _ => true
  | Event.connect _ _ => true
  | Event.close _ => true
  | _ => false

/-- The events `create_device` can add. -/
def is_create_device_event : Event → Bool
  | Event.call_create_device _ _ _ _ => true
  | Event.getsockname _ => true
  | Event.getpeername _ => true
  | Event.get_hid_device_info _ _ _ => true
  | Event.syslog _ _ _ => true
  | Event.ioctl_HIDPCONNADD _ _ => true
  | Event.free_rd_data => true
  | _ => false

/-- The steps of a pairing past the transport: the entry into
`create_device`, the descriptor resolver and the handoff to the driver. -/
def is_pairing_step : Event → Bool
  | Event.call_create_device _ _ _ _ => true
  | Event.get_hid_device_info _ _ _ => true
  | Event.ioctl_HIDPCONNADD _ _ => true
  | _ => false

/-- The `poll` calls. -/
def is_poll : Event → Bool
  | Event.poll _ _ _ _ _ => true
  | _ => false

/-- In the iteration of the server loop started at `t`, `poll` reports a
positive count and `POLLIN` on one of the two listening sockets. -/
def poll_reports_POLLIN (env : Env) (csk isk : Int) (t : Trace) : Prop :=
  0 < (env.poll t csk isk).1 ∧
    ((env.poll t csk isk).2.1 ||| (env.poll t csk isk).2.2) &&& POLLIN ≠ 0

/-- Every handoff of the trace is for two accepted endpoints with the same
peer address. -/
def handoffs_paired_to_one_peer (t : Trace) : Prop :=
  ∀ ctl req, Event.ioctl_HIDPCONNADD ctl req ∈ t →
    ∀ sk1 sk2 p1 p2, Event.accept sk1 req.ctrl_sock p1 ∈ t →
      Event.accept sk2 req.intr_sock p2 ∈ t → p1.l2_bdaddr = p2.l2_bdaddr

/-- The events `do_connect` can add after the mark of its entry. -/
def is_attempt_event : Event → Bool
  | Event.perror _ => true
  | Event.sleep _ => true
  | Event.fprintf_stderr fmt _ => fmt == "HID create error %d (%s)\n"
  | e => is_l2cap_connect_event e || is_create_device_event e

/-- The entries into the functions of a pairing attempt: `do_connect`,
`l2cap_connect` and `create_device`. -/
def is_attempt_call : Event → Bool
  | Event.call_do_connect _ _ _ _ => true
  | Event.call_l2cap_connect _ _ _ => true
  | Event.call_create_device _ _ _ _ => true
  | _ => false

/-- The events the `for` loop of `do_search` can add. -/
def is_search_loop_event : Event → Bool
  | Event.call_do_connect _ _ _ _ => true
  | Event.printf fmt _ => fmt == "\tConnecting to device %s\n"
  | e => is_attempt_event e

/-- The report of a discovery failure (main.c:306). -/
def no_devices_report : Event :=
  Event.fprintf_stderr "\tNo devices in range or visible\n" []

/-- The order-preserving filter of the scan results by the device class
test `class[1] == 0x25 && class[2] == 0x00`, as remote addresses. -/
def hid_targets (l : List inquiry_info) : List bdaddr_t :=
  (l.filter fun e => decide (e.dev_class 1 = 0x25 ∧ e.dev_class 2 = 0x00)).map
    fun e => e.bdaddr

/-- The events `do_search` adds up to the inquiry. -/
def is_inquiry_event : Event → Bool
  | Event.hci_devid _ => true
  | Event.hci_get_route => true
  | Event.hci_devba _ => true
  | Event.printf fmt _ => fmt == "Searching ...\n"
  | Event.hci_inquiry _ _ _ _ => true
  | _ => false

/-- The pairing attempt `do_connect` started at `t` fails: the control
channel `l2cap_connect` returns a negative value, or else the interrupt
channel `l2cap_connect` does, or else `create_device` does. -/
def do_connect_fails (env : Env) (ctl : Int) (src dst : bdaddr_t) (timeout : Int)
    (t : Trace) : Prop :=
  (l2cap_connect env src dst L2CAP_PSM_HIDP_CTRL
    (t ++ [Event.call_do_connect ctl src dst timeout])).1 < 0 ∨
  (l2cap_connect env src dst L2CAP_PSM_HIDP_INTR
    (l2cap_connect env src dst L2CAP_PSM_HIDP_CTRL
      (t ++ [Event.call_do_connect ctl src dst timeout])).2).1 < 0 ∨
  (create_device env ctl
    (l2cap_connect env src dst L2CAP_PSM_HIDP_CTRL
      (t ++ [Event.call_do_connect ctl src dst timeout])).1
    (l2cap_connect env src dst L2CAP_PSM_HIDP_INTR
      (l2cap_connect env src dst L2CAP_PSM_HIDP_CTRL
        (t ++ [Event.call_do_connect ctl src dst timeout])).2).1
    timeout
    (l2cap_connect env src dst L2CAP_PSM_HIDP_INTR
      (l2cap_connect env src dst L2CAP_PSM_HIDP_CTRL
        (t ++ [Event.call_do_connect ctl src dst timeout])).2).2).1 < 0

/-! ## Sample environments -/

/-- A cooperative environment: descriptors are fresh, every call succeeds
on a valid descriptor and fails on a negative one, the peer is `0xAA`, and
the resolver names the device and supplies a two-byte descriptor. -/
def env_ok : Env where
  socket := fun t _ _ _ => 3 + t.length
  bind := fun _ _ _ => 0
  connect := fun _ _ _ => 0
  listen := fun _ _ _ => 0
  accept := fun t _ => (20 + t.length, ⟨AF_BLUETOOTH, 0, ⟨0xAA⟩⟩)
  getsockname := fun _ sk =>
    if sk < 0 then (-1, sockaddr_l2_zero) else (0, ⟨AF_BLUETOOTH, 0, ⟨1⟩⟩)
  getpeername := fun _ sk =>
    if sk < 0 then (-1, sockaddr_l2_zero) else (0, ⟨AF_BLUETOOTH, 0, ⟨0xAA⟩⟩)
  get_hid_device_info := fun _ _ _ req =>
    (0, { req with name := "TestPad", rd_size := 2, rd_data := some [5, 1] })
  ioctl_HIDPCONNADD := fun _ _ req => if req.ctrl_sock < 0 ∨ req.intr_sock < 0 then -1 else 0
  poll := fun _ _ _ => (1, POLLIN, 0)
  io_canceled := fun _ => true
  errno := fun _ => 0
  hci_devid := fun _ _ => 0
  hci_get_route := fun _ => 0
  hci_devba := fun _ _ => ⟨1⟩
  hci_inquiry := fun _ _ _ _ _ => (0, fun _ => ⟨⟨0⟩, fun _ => 0⟩)
  fork := fun _ => 0
  open_dev_null := fun _ => 3

/-- As `env_ok`, but the peer refuses the interrupt channel: `connect` fails
on the interrupt PSM. -/
def env_intr_refused : Env :=
  { env_ok with
    connect := fun _ _ addr => if addr.l2_psm = L2CAP_PSM_HIDP_INTR then -1 else 0 }

/-- As `env_ok`, with a server loop that runs once, and an `accept` that
fails on the interrupt listening socket 5. -/
def env_intr_accept_fails : Env :=
  { env_ok with
    io_canceled := fun t => !t.isEmpty
    accept := fun t sk =>
      if sk = 5 then (-1, sockaddr_l2_zero) else (20 + t.length, ⟨AF_BLUETOOTH, 0, ⟨0xAA⟩⟩) }

/-- As `env_ok`, with a server loop that runs once, and two different peers:
`0xAA` connects to the control listening socket 4, `0xBB` to the interrupt
listening socket 5. -/
def env_two_peers : Env :=
  { env_ok with
    io_canceled := fun t => !t.isEmpty
    accept := fun t sk =>
      (20 + t.length, ⟨AF_BLUETOOTH, 0, if sk = 4 then ⟨0xAA⟩ else ⟨0xBB⟩⟩) }

/-- As `env_ok`, with an `accept` that fails on the control listening
socket 4. -/
def env_ctrl_accept_fails : Env :=
  { env_ok with
    accept := fun t sk =>
      if sk = 4 then (-1, sockaddr_l2_zero) else (20 + t.length, ⟨AF_BLUETOOTH, 0, ⟨0xAA⟩⟩) }

/-- As `env_ok`, with an inquiry that finds two devices of HID class, `0xA0`
and `0xA1`, neither of which can be connected to. -/
def env_unreachable : Env :=
  { env_ok with
    connect := fun _ _ _ => -1
    hci_inquiry := fun _ _ _ _ _ =>
      (2, fun i => ⟨⟨0xA0 + i⟩, fun j => if j = 1 then 0x25 else 0⟩) }

/-- As `env_ok`, with an inquiry that fails. -/
def env_inquiry_fails : Env :=
  { env_ok with
    hci_inquiry := fun _ _ _ _ _ => (-1, fun _ => ⟨⟨0⟩, fun _ => 0⟩) }

/-! ## `create_device` -/

theorem to_int32_eq (x : Int) (h : -2 ^ 31 ≤ x ∧ x < 2 ^ 31) : to_int32 x = x := by
  unfold to_int32
  norm_num at h ⊢
  omega

theorem create_device_events (env : Env) (ctl csk isk timeout : Int) (t : Trace) :
    ∃ evs, (create_device env ctl csk isk timeout t).2 = t ++ evs ∧
      ∀ e ∈ evs, is_create_device_event e = true := by
  unfold create_device
  simp only []
  split_ifs <;> simp [is_create_device_event]

/-- C8: `create_device` issues the handoff `ioctl(ctl, HIDPCONNADD, &req)`
exactly when `getsockname` on the control socket, `getpeername` on the control
socket and the resolver `get_hid_device_info` all succeed, consulted in that
order.  When `getsockname` or `getpeername` fails it returns `-1`, when the
resolver fails it returns the resolver's error code, in each case a negative
value and without the handoff; otherwise it returns what the handoff
returned. -/
theorem create_device_handoff (env : Env) (ctl csk isk timeout : Int) (t : Trace) :
    let t0 := t ++ [Event.call_create_device ctl csk isk timeout]
    let sn := env.getsockname t0 csk
    let t1 := t0 ++ [Event.getsockname csk]
    let pn := env.getpeername t1 csk
    let t2 := t1 ++ [Event.getpeername csk]
    let req := create_device_req csk isk timeout
    let rs := env.get_hid_device_info t2 sn.2.l2_bdaddr pn.2.l2_bdaddr req
    let t3 := t2 ++ [Event.get_hid_device_info sn.2.l2_bdaddr pn.2.l2_bdaddr req]
    let t4 := t3 ++ [Event.syslog LOG_INFO "New HID device %s (%s)"
      [Arg.bda pn.2.l2_bdaddr, Arg.str rs.2.name]]
    let out := create_device env ctl csk isk timeout t
    (sn.1 < 0 → out = (-1, t1)) ∧
    (0 ≤ sn.1 → pn.1 < 0 → out = (-1, t2)) ∧
    (0 ≤ sn.1 → 0 ≤ pn.1 → rs.1 < 0 → out = (rs.1, t3)) ∧
    (0 ≤ sn.1 → 0 ≤ pn.1 → 0 ≤ rs.1 →
      out = (env.ioctl_HIDPCONNADD t4 ctl rs.2,
        t4 ++ [Event.ioctl_HIDPCONNADD ctl rs.2] ++
          (if rs.2.rd_data.isSome then [Event.free_rd_data] else []))) ∧
    ((∃ c q, Event.ioctl_HIDPCONNADD c q ∈ new_events t out.2) ↔
      (0 ≤ sn.1 ∧ 0 ≤ pn.1 ∧ 0 ≤ rs.1)) ∧
    (¬ (0 ≤ sn.1 ∧ 0 ≤ pn.1 ∧ 0 ≤ rs.1) → out.1 < 0) := by
  intro t0 sn t1 pn t2 req rs t3 t4 out
  simp only [out, t4, t3, rs, req, t2, pn, t1, sn, t0, create_device, new_events,
    List.append_assoc, List.cons_append, List.nil_append]
  split_ifs with h1 h2 h3 h4 <;> simp_all

/-- Witness for C8: in the cooperative environment all three steps succeed
and the handoff is issued with the record the resolver filled in. -/
theorem create_device_handoff_witness :
    create_device env_ok 3 5 6 30 [] =
      (0,
        [Event.call_create_device 3 5 6 30,
         Event.getsockname 5,
         Event.getpeername 5,
         Event.get_hid_device_info ⟨1⟩ ⟨0xAA⟩ (create_device_req 5 6 30),
         Event.syslog LOG_INFO "New HID device %s (%s)" [Arg.bda ⟨0xAA⟩, Arg.str "TestPad"],
         Event.ioctl_HIDPCONNADD 3
           { create_device_req 5 6 30 with
             name := "TestPad", rd_size := 2, rd_data := some [5, 1] },
         Event.free_rd_data]) :=
  (create_device_handoff env_ok 3 5 6 30 []).2.2.2.1 (by decide) (by decide) (by decide)

/-- C9: when `timeout * 60` fits a signed 32-bit `int`, the request record
`create_device` builds and passes to the resolver has `ctrl_sock = csk`,
`intr_sock = isk`, `flags = 0`, `idle_to = (timeout * 60) mod 2^32` and every
other field zero; and the resolver is given that record whenever both
introspection calls succeed. -/
theorem create_device_request (env : Env) (ctl csk isk timeout : Int) (t : Trace)
    (h : -2 ^ 31 ≤ timeout * 60 ∧ timeout * 60 < 2 ^ 31) :
    let t0 := t ++ [Event.call_create_device ctl csk isk timeout]
    let sn := env.getsockname t0 csk
    let pn := env.getpeername (t0 ++ [Event.getsockname csk]) csk
    let R : hidp_connadd_req :=
      { ctrl_sock := csk, intr_sock := isk, parser := 0, rd_size := 0, rd_data := none,
        country := 0, subclass := 0, vendor := 0, product := 0, version := 0,
        flags := 0, idle_to := ((timeout * 60) % 2 ^ 32).toNat, name := "" }
    (∀ src dst req, Event.get_hid_device_info src dst req ∈
        new_events t (create_device env ctl csk isk timeout t).2 → req = R) ∧
    (0 ≤ sn.1 → 0 ≤ pn.1 → Event.get_hid_device_info sn.2.l2_bdaddr pn.2.l2_bdaddr R ∈
        new_events t (create_device env ctl csk isk timeout t).2) := by
  intro t0 sn pn R
  have hR : create_device_req csk isk timeout = R := by
    simp only [create_device_req, hidp_connadd_req_zero, to_int32_eq _ h, to_uint32, R]
  simp only [pn, sn, t0, create_device, new_events, hR,
    List.append_assoc, List.cons_append, List.nil_append]
  split_ifs with h1 h2 h3 h4 <;> simp_all

/-- Witness for C9: with a timeout of 30 minutes the resolver is handed a
record whose idle timeout is 1800 seconds. -/
theorem create_device_request_witness :
    Event.get_hid_device_info ⟨1⟩ ⟨0xAA⟩
      { ctrl_sock := 5, intr_sock := 6, parser := 0, rd_size := 0, rd_data := none,
        country := 0, subclass := 0, vendor := 0, product := 0, version := 0,
        flags := 0, idle_to := 1800, name := "" } ∈
      new_events [] (create_device env_ok 3 5 6 30 []).2 :=
  (create_device_request env_ok 3 5 6 30 [] (by decide)).2 (by decide) (by decide)

theorem create_device_ioctl_mem (env : Env) (ctl csk isk timeout : Int) (t : Trace)
    (c : Int) (q : hidp_connadd_req)
    (h : Event.ioctl_HIDPCONNADD c q ∈ new_events t (create_device env ctl csk isk timeout t).2) :
    let t0 := t ++ [Event.call_create_device ctl csk isk timeout]
    let sn := env.getsockname t0 csk
    let pn := env.getpeername (t0 ++ [Event.getsockname csk]) csk
    let rs := env.get_hid_device_info (t0 ++ [Event.getsockname csk, Event.getpeername csk])
      sn.2.l2_bdaddr pn.2.l2_bdaddr (create_device_req csk isk timeout)
    c = ctl ∧ q = rs.2 ∧ 0 ≤ sn.1 ∧ 0 ≤ pn.1 ∧ 0 ≤ rs.1 := by
  intro t0 sn pn rs
  simp only [rs, pn, sn, t0, create_device, new_events,
    List.append_assoc, List.cons_append, List.nil_append] at h ⊢
  split_ifs at h with h1 h2 h3 h4 <;> simp_all

/-! ## `do_connect` -/

theorem l2cap_connect_events (env : Env) (src dst : bdaddr_t) (psm : Nat) (t : Trace) :
    ∃ evs, (l2cap_connect env src dst psm t).2 = t ++ evs ∧
      ∀ e ∈ evs, is_l2cap_connect_event e = true := by
  unfold l2cap_connect
  simp only []
  split_ifs <;> simp [is_l2cap_connect_event]

theorem l2cap_connect_event_not_pairing_step (e : Event)
    (h : is_l2cap_connect_event e = true) : is_pairing_step e = false := by
  cases e <;> first | rfl | exact absurd h Bool.false_ne_true

/-- C1: in `do_connect`, when the control-channel `l2cap_connect` succeeds
with `csk >= 0` and the interrupt-channel `l2cap_connect` fails, the process
exits with status 1 after `close(csk)` (then `close(ctl)`), and
`create_device`, the resolver and the `HIDPCONNADD` handoff are never
invoked. -/
theorem do_connect_interrupt_failure (env : Env) (ctl : Int) (src dst : bdaddr_t)
    (timeout : Int) (t : Trace)
    (hc : 0 ≤ (l2cap_connect env src dst L2CAP_PSM_HIDP_CTRL
      (t ++ [Event.call_do_connect ctl src dst timeout])).1)
    (hi : (l2cap_connect env src dst L2CAP_PSM_HIDP_INTR
      (l2cap_connect env src dst L2CAP_PSM_HIDP_CTRL
        (t ++ [Event.call_do_connect ctl src dst timeout])).2).1 < 0) :
    let c := l2cap_connect env src dst L2CAP_PSM_HIDP_CTRL
      (t ++ [Event.call_do_connect ctl src dst timeout])
    let i := l2cap_connect env src dst L2CAP_PSM_HIDP_INTR c.2
    do_connect env ctl src dst timeout t =
      (Outcome.exit 1, i.2 ++ [Event.perror "Can't create HID interrupt channel",
        Event.close c.1, Event.close ctl]) ∧
    ∀ e ∈ new_events t (do_connect env ctl src dst timeout t).2, is_pairing_step e = false := by
  intro c i
  have hd : do_connect env ctl src dst timeout t =
      (Outcome.exit 1, i.2 ++ [Event.perror "Can't create HID interrupt channel",
        Event.close c.1, Event.close ctl]) := by
    unfold do_connect
    simp only []
    rw [if_neg (not_lt.mpr hc), if_pos hi]
  refine ⟨hd, ?_⟩
  rw [hd]
  obtain ⟨e1, h1, p1⟩ := l2cap_connect_events env src dst L2CAP_PSM_HIDP_CTRL
    (t ++ [Event.call_do_connect ctl src dst timeout])
  obtain ⟨e2, h2, p2⟩ := l2cap_connect_events env src dst L2CAP_PSM_HIDP_INTR c.2
  have hi2 : i.2 = t ++ (Event.call_do_connect ctl src dst timeout :: (e1 ++ e2)) := by
    show (l2cap_connect env src dst L2CAP_PSM_HIDP_INTR c.2).2 = _
    rw [h2]
    show (l2cap_connect env src dst L2CAP_PSM_HIDP_CTRL _).2 ++ e2 = _
    rw [h1]
    simp
  intro e he
  simp only [new_events, hi2, List.append_assoc, List.drop_left, List.cons_append,
    List.mem_cons, List.mem_append] at he
  rcases he with rfl | he | he | he
  · rfl
  · exact l2cap_connect_event_not_pairing_step e (p1 e he)
  · exact l2cap_connect_event_not_pairing_step e (p2 e he)
  · simp only [List.mem_cons, List.mem_singleton, List.not_mem_nil, or_false] at he
    rcases he with rfl | rfl | rfl <;> rfl

/-- Witness for C1: the peer accepts the control channel (descriptor 5) and
refuses the interrupt channel; descriptor 5 is closed and the process exits
with status 1. -/
theorem do_connect_interrupt_failure_witness :
    do_connect env_intr_refused 3 ⟨1⟩ ⟨0xAA⟩ 30 [] =
      (Outcome.exit 1,
        [Event.call_do_connect 3 ⟨1⟩ ⟨0xAA⟩ 30,
         Event.call_l2cap_connect ⟨1⟩ ⟨0xAA⟩ L2CAP_PSM_HIDP_CTRL,
         Event.socket PF_BLUETOOTH SOCK_SEQPACKET BTPROTO_L2CAP,
         Event.bind 5 ⟨AF_BLUETOOTH, 0, ⟨1⟩⟩,
         Event.setsockopt 5 SOL_L2CAP L2CAP_OPTIONS (OptVal.l2cap_options 48 48 0xffff),
         Event.connect 5 ⟨AF_BLUETOOTH, L2CAP_PSM_HIDP_CTRL, ⟨0xAA⟩⟩,
         Event.call_l2cap_connect ⟨1⟩ ⟨0xAA⟩ L2CAP_PSM_HIDP_INTR,
         Event.socket PF_BLUETOOTH SOCK_SEQPACKET BTPROTO_L2CAP,
         Event.bind 10 ⟨AF_BLUETOOTH, 0, ⟨1⟩⟩,
         Event.setsockopt 10 SOL_L2CAP L2CAP_OPTIONS (OptVal.l2cap_options 48 48 0xffff),
         Event.connect 10 ⟨AF_BLUETOOTH, L2CAP_PSM_HIDP_INTR, ⟨0xAA⟩⟩,
         Event.close 10,
         Event.perror "Can't create HID interrupt channel",
         Event.close 5,
         Event.close 3]) :=
  (do_connect_interrupt_failure env_intr_refused 3 ⟨1⟩ ⟨0xAA⟩ 30 [] (by decide) (by decide)).1

/-! ## `run_server` -/

theorem l2cap_accept_trace (env : Env) (sk : Int) (w : Bool) (t : Trace) :
    (l2cap_accept env sk w t).2 =
      t ++ [Event.accept sk (env.accept t sk).1 (env.accept t sk).2] := by
  unfold l2cap_accept
  simp only []
  split_ifs <;> rfl

theorem l2cap_accept_failed (env : Env) (sk : Int) (w : Bool) (t : Trace)
    (h : (l2cap_accept env sk w t).1.1 < 0) : (l2cap_accept env sk w t).1.1 = -1 := by
  unfold l2cap_accept at h ⊢
  simp only [] at h ⊢
  split_ifs at h ⊢ with h1 h2
  · rfl
  · exact absurd h h1
  · exact absurd h h1

theorem run_server_body_pollin (env : Env) (ctl csk isk timeout : Int) (t : Trace)
    (hp : poll_reports_POLLIN env csk isk t) :
    run_server_body env ctl csk isk timeout t =
      run_server_pollin env ctl csk isk timeout (t ++ [poll_call csk isk]) := by
  unfold run_server_body
  simp only []
  rw [if_neg (not_le.mpr hp.1), if_pos hp.2]

theorem run_server_body_idle (env : Env) (ctl csk isk timeout : Int) (t : Trace)
    (hp : ¬ poll_reports_POLLIN env csk isk t) :
    run_server_body env ctl csk isk timeout t = t ++ [poll_call csk isk] := by
  unfold run_server_body
  simp only []
  unfold poll_reports_POLLIN at hp
  split_ifs with h1 h2
  · rfl
  · exact absurd ⟨not_le.mp h1, h2⟩ hp
  · rfl

theorem create_device_event_not_poll (e : Event)
    (h : is_create_device_event e = true) : is_poll e = false := by
  cases e <;> first | rfl | exact absurd h Bool.false_ne_true

/-- C2: in an iteration of the server loop in which `poll` reports `POLLIN`
and exactly one of the two `l2cap_accept` calls succeeds, the iteration ends,
whatever `create_device` returned, with `close` of the accepted descriptor
(and `close(-1)` for the failed one), and it makes no further `poll` call: the
accepted descriptor is closed before the next `poll`. -/
theorem run_server_body_closes_accepted (env : Env) (ctl csk isk timeout : Int) (t : Trace)
    (hp : poll_reports_POLLIN env csk isk t)
    (hone :
      (0 ≤ (l2cap_accept env csk false (t ++ [poll_call csk isk])).1.1 ∧
        (l2cap_accept env isk false
          (l2cap_accept env csk false (t ++ [poll_call csk isk])).2).1.1 < 0) ∨
      ((l2cap_accept env csk false (t ++ [poll_call csk isk])).1.1 < 0 ∧
        0 ≤ (l2cap_accept env isk false
          (l2cap_accept env csk false (t ++ [poll_call csk isk])).2).1.1)) :
    let a := l2cap_accept env csk false (t ++ [poll_call csk isk])
    let b := l2cap_accept env isk false a.2
    let c := create_device env ctl a.1.1 b.1.1 timeout b.2
    let log := if c.1 < 0 then
        [Event.syslog LOG_ERR "HID create error %d (%s)"
          [Arg.int (env.errno c.2), Arg.strerror (env.errno c.2)]]
      else []
    run_server_body env ctl csk isk timeout t =
      c.2 ++ log ++
        (if 0 ≤ a.1.1 then [Event.close a.1.1, Event.close (-1)]
         else [Event.close (-1), Event.close b.1.1]) ∧
    ∀ e ∈ new_events (t ++ [poll_call csk isk]) (run_server_body env ctl csk isk timeout t),
      is_poll e = false := by
  intro a b c log
  have hbody : run_server_body env ctl csk isk timeout t =
      c.2 ++ log ++ [Event.close a.1.1, Event.close b.1.1] := by
    rw [run_server_body_pollin env ctl csk isk timeout t hp]
    unfold run_server_pollin
    simp only []
    by_cases hc : c.1 < 0
    · have hc' : (create_device env ctl a.1.1 b.1.1 timeout b.2).1 < 0 := hc
      rw [if_pos hc']
      simp only [log, if_pos hc]
    · have hc' : ¬ (create_device env ctl a.1.1 b.1.1 timeout b.2).1 < 0 := hc
      rw [if_neg hc']
      simp only [log, if_neg hc, List.append_nil]
  have hcl : [Event.close a.1.1, Event.close b.1.1] =
      (if 0 ≤ a.1.1 then [Event.close a.1.1, Event.close (-1)]
       else [Event.close (-1), Event.close b.1.1]) := by
    rcases hone with ⟨h1, h2⟩ | ⟨h1, h2⟩
    · have hb : b.1.1 = -1 := l2cap_accept_failed env isk false a.2 h2
      have h1' : 0 ≤ a.1.1 := h1
      rw [if_pos h1', hb]
    · have ha : a.1.1 = -1 := l2cap_accept_failed env csk false _ h1
      have h1' : ¬ 0 ≤ a.1.1 := not_le.mpr h1
      rw [if_neg h1', ha]
  refine ⟨by rw [hbody, hcl], ?_⟩
  obtain ⟨evs, hevs, pevs⟩ := create_device_events env ctl a.1.1 b.1.1 timeout b.2
  have hb2 : b.2 = t ++ [poll_call csk isk] ++
      [Event.accept csk (env.accept (t ++ [poll_call csk isk]) csk).1
        (env.accept (t ++ [poll_call csk isk]) csk).2,
       Event.accept isk (env.accept a.2 isk).1 (env.accept a.2 isk).2] := by
    show (l2cap_accept env isk false a.2).2 = _
    rw [l2cap_accept_trace]
    have ha2 : a.2 = t ++ [poll_call csk isk] ++
        [Event.accept csk (env.accept (t ++ [poll_call csk isk]) csk).1
          (env.accept (t ++ [poll_call csk isk]) csk).2] := l2cap_accept_trace _ _ _ _
    rw [ha2]
    simp
  have hc2 : c.2 = b.2 ++ evs := hevs
  intro e he
  rw [hbody, hc2, hb2] at he
  simp only [new_events, List.append_assoc, List.drop_left] at he
  rw [← List.append_assoc, List.drop_left] at he
  simp only [List.mem_append, List.mem_cons, List.mem_singleton, List.not_mem_nil,
    or_false] at he
  rcases he with (rfl | rfl) | he | he | rfl | rfl
  · rfl
  · rfl
  · exact create_device_event_not_poll e (pevs e he)
  · simp only [log] at he
    split_ifs at he
    · rw [List.mem_singleton] at he
      rw [he]
      rfl
    · exact absurd he (List.not_mem_nil e)
  · rfl
  · rfl

/-- Witness for C2: the accept on the control listening socket fails and the
one on the interrupt listening socket returns descriptor 22, which is closed
at the end of the iteration. -/
theorem run_server_body_closes_accepted_witness :
    run_server_body env_ctrl_accept_fails 3 4 5 30 [] =
      [poll_call 4 5,
       Event.accept 4 (-1) sockaddr_l2_zero,
       Event.accept 5 22 ⟨AF_BLUETOOTH, 0, ⟨0xAA⟩⟩,
       Event.call_create_device 3 (-1) 22 30,
       Event.getsockname (-1),
       Event.syslog LOG_ERR "HID create error %d (%s)" [Arg.int 0, Arg.strerror 0],
       Event.close (-1),
       Event.close 22] :=
  (run_server_body_closes_accepted env_ctrl_accept_fails 3 4 5 30 []
    ⟨by decide, by decide⟩ (Or.inr ⟨by decide, by decide⟩)).1

/-- C3, the code at a failing input: the accept on the interrupt listening
socket fails (`nisk = -1`) while the one on the control listening socket
returns descriptor 22; `create_device` is still called, the resolver is
invoked and the `HIDPCONNADD` handoff is issued with `intr_sock = -1`. -/
theorem run_server_resolves_after_failed_accept :
    run_server env_intr_accept_fails 3 4 5 30 2 [] =
      some [Event.read_io_canceled,
        poll_call 4 5,
        Event.accept 4 22 ⟨AF_BLUETOOTH, 0, ⟨0xAA⟩⟩,
        Event.accept 5 (-1) sockaddr_l2_zero,
        Event.call_create_device 3 22 (-1) 30,
        Event.getsockname 22,
        Event.getpeername 22,
        Event.get_hid_device_info ⟨1⟩ ⟨0xAA⟩ (create_device_req 22 (-1) 30),
        Event.syslog LOG_INFO "New HID device %s (%s)" [Arg.bda ⟨0xAA⟩, Arg.str "TestPad"],
        Event.ioctl_HIDPCONNADD 3
          { create_device_req 22 (-1) 30 with
            name := "TestPad", rd_size := 2, rd_data := some [5, 1] },
        Event.free_rd_data,
        Event.syslog LOG_ERR "HID create error %d (%s)" [Arg.int 0, Arg.strerror 0],
        Event.close 22,
        Event.close (-1),
        Event.read_io_canceled] := by
  decide

/-- C4 fails as stated: two different peers, `0xAA` on the control listening
socket and `0xBB` on the interrupt listening socket, are accepted in one
iteration and the handoff is issued for the two descriptors. -/
theorem run_server_hands_off_two_peers :
    ¬ ∀ t, run_server env_two_peers 3 4 5 30 2 [] = some t → handoffs_paired_to_one_peer t := by
  intro h
  have h1 := h _ rfl 3
    { create_device_req 22 23 30 with name := "TestPad", rd_size := 2, rd_data := some [5, 1] }
    (by decide) 4 5 ⟨AF_BLUETOOTH, 0, ⟨0xAA⟩⟩ ⟨AF_BLUETOOTH, 0, ⟨0xBB⟩⟩ (by decide) (by decide)
  exact absurd h1 (by decide)

/-- C4 as amended: every `HIDPCONNADD` handoff issued in an iteration of the
server loop is issued after `poll` reported `POLLIN`, for the two descriptors
`ncsk` and `nisk` that the two back-to-back `l2cap_accept` calls of that
iteration returned, once `getsockname` and `getpeername` on `ncsk` and the
resolver succeeded; the request handed off is the one the resolver returned
for the record built from `ncsk` and `nisk`.  The peer addresses of the two
accepted endpoints are not compared. -/
theorem run_server_body_handoff (env : Env) (ctl csk isk timeout : Int) (t : Trace)
    (c : Int) (q : hidp_connadd_req)
    (h : Event.ioctl_HIDPCONNADD c q ∈
      new_events t (run_server_body env ctl csk isk timeout t)) :
    let a := l2cap_accept env csk false (t ++ [poll_call csk isk])
    let b := l2cap_accept env isk false a.2
    let ncsk := a.1.1
    let nisk := b.1.1
    let t0 := b.2 ++ [Event.call_create_device ctl ncsk nisk timeout]
    let sn := env.getsockname t0 ncsk
    let pn := env.getpeername (t0 ++ [Event.getsockname ncsk]) ncsk
    let rs := env.get_hid_device_info (t0 ++ [Event.getsockname ncsk, Event.getpeername ncsk])
      sn.2.l2_bdaddr pn.2.l2_bdaddr (create_device_req ncsk nisk timeout)
    poll_reports_POLLIN env csk isk t ∧ c = ctl ∧ q = rs.2 ∧
      0 ≤ sn.1 ∧ 0 ≤ pn.1 ∧ 0 ≤ rs.1 := by
  intro a b ncsk nisk t0 sn pn rs
  by_cases hp : poll_reports_POLLIN env csk isk t
  · refine ⟨hp, ?_⟩
    apply create_device_ioctl_mem env ctl ncsk nisk timeout b.2 c q
    obtain ⟨evs, hevs, -⟩ := create_device_events env ctl ncsk nisk timeout b.2
    have hb2 : b.2 = t ++ [poll_call csk isk,
        Event.accept csk (env.accept (t ++ [poll_call csk isk]) csk).1
          (env.accept (t ++ [poll_call csk isk]) csk).2,
        Event.accept isk (env.accept a.2 isk).1 (env.accept a.2 isk).2] := by
      show (l2cap_accept env isk false a.2).2 = _
      rw [l2cap_accept_trace]
      have ha2 : a.2 = t ++ [poll_call csk isk] ++
          [Event.accept csk (env.accept (t ++ [poll_call csk isk]) csk).1
            (env.accept (t ++ [poll_call csk isk]) csk).2] := l2cap_accept_trace _ _ _ _
      rw [ha2]
      simp
    rw [run_server_body_pollin env ctl csk isk timeout t hp] at h
    unfold run_server_pollin at h
    simp only [] at h
    have hc2 : (create_device env ctl ncsk nisk timeout b.2).2 = b.2 ++ evs := hevs
    have hc2' : (create_device env ctl a.1.1 b.1.1 timeout b.2).2 = b.2 ++ evs := hevs
    rw [hc2, new_events, List.drop_left]
    change Event.ioctl_HIDPCONNADD c q ∈ new_events t
      ((if (create_device env ctl a.1.1 b.1.1 timeout b.2).1 < 0 then
          (create_device env ctl a.1.1 b.1.1 timeout b.2).2 ++
            [Event.syslog LOG_ERR "HID create error %d (%s)"
              [Arg.int (env.errno (create_device env ctl a.1.1 b.1.1 timeout b.2).2),
               Arg.strerror (env.errno (create_device env ctl a.1.1 b.1.1 timeout b.2).2)]]
        else (create_device env ctl a.1.1 b.1.1 timeout b.2).2) ++
        [Event.close a.1.1, Event.close b.1.1]) at h
    rw [hc2'] at h
    rw [hb2] at h
    split_ifs at h <;>
      simpa [new_events, poll_call, List.append_assoc, List.drop_left] using h
  · rw [run_server_body_idle env ctl csk isk timeout t hp] at h
    simp [new_events, poll_call] at h

/-- Witness for C4 as amended: with the two peers `0xAA` and `0xBB`, the
handoff of the iteration is the resolver's output for the record built from
the two accepted descriptors 21 and 22. -/
theorem run_server_body_handoff_witness :
    poll_reports_POLLIN env_two_peers 4 5 [] ∧
    ({ create_device_req 21 22 30 with
        name := "TestPad", rd_size := 2, rd_data := some [5, 1] } : hidp_connadd_req) =
      (env_two_peers.get_hid_device_info [] ⟨1⟩ ⟨0xAA⟩ (create_device_req 21 22 30)).2 :=
  have h := run_server_body_handoff env_two_peers 3 4 5 30 [] 3
    { create_device_req 21 22 30 with name := "TestPad", rd_size := 2, rd_data := some [5, 1] }
    (by decide)
  ⟨h.1, h.2.2.1⟩

/-! ## `do_search` -/

theorem l2cap_connect_event_attempt (e : Event)
    (h : is_l2cap_connect_event e = true) : is_attempt_event e = true := by
  cases e <;> first | rfl | exact absurd h Bool.false_ne_true

theorem create_device_event_attempt (e : Event)
    (h : is_create_device_event e = true) : is_attempt_event e = true := by
  cases e <;> first | rfl | exact absurd h Bool.false_ne_true

theorem do_connect_events (env : Env) (ctl : Int) (src dst : bdaddr_t) (timeout : Int)
    (t : Trace) :
    ∃ evs, (do_connect env ctl src dst timeout t).2 =
        t ++ Event.call_do_connect ctl src dst timeout :: evs ∧
      ∀ e ∈ evs, is_attempt_event e = true := by
  obtain ⟨e1, h1, p1⟩ := l2cap_connect_events env src dst L2CAP_PSM_HIDP_CTRL
    (t ++ [Event.call_do_connect ctl src dst timeout])
  obtain ⟨e2, h2, p2⟩ := l2cap_connect_events env src dst L2CAP_PSM_HIDP_INTR
    (l2cap_connect env src dst L2CAP_PSM_HIDP_CTRL
      (t ++ [Event.call_do_connect ctl src dst timeout])).2
  obtain ⟨e3, h3, p3⟩ := create_device_events env ctl
    (l2cap_connect env src dst L2CAP_PSM_HIDP_CTRL
      (t ++ [Event.call_do_connect ctl src dst timeout])).1
    (l2cap_connect env src dst L2CAP_PSM_HIDP_INTR
      (l2cap_connect env src dst L2CAP_PSM_HIDP_CTRL
        (t ++ [Event.call_do_connect ctl src dst timeout])).2).1 timeout
    (l2cap_connect env src dst L2CAP_PSM_HIDP_INTR
      (l2cap_connect env src dst L2CAP_PSM_HIDP_CTRL
        (t ++ [Event.call_do_connect ctl src dst timeout])).2).2
  have q1 : ∀ e ∈ e1, is_attempt_event e = true :=
    fun e he => l2cap_connect_event_attempt e (p1 e he)
  have q2 : ∀ e ∈ e2, is_attempt_event e = true :=
    fun e he => l2cap_connect_event_attempt e (p2 e he)
  have q3 : ∀ e ∈ e3, is_attempt_event e = true :=
    fun e he => create_device_event_attempt e (p3 e he)
  replace h2 := h2.trans (congrArg (fun l => l ++ e2) h1)
  replace h3 := h3.trans (congrArg (fun l => l ++ e3) h2)
  simp only [] at h2 h3
  unfold do_connect
  simp only []
  split_ifs
  · refine ⟨e1 ++ [Event.perror "Can't create HID control channel", Event.close ctl], ?_, ?_⟩
    · rw [h1]
      simp
    · intro e he
      simp only [List.mem_append, List.mem_cons, List.mem_singleton, List.not_mem_nil,
        or_false] at he
      rcases he with he | rfl | rfl
      · exact q1 e he
      · rfl
      · rfl
  · refine ⟨e1 ++ e2 ++ [Event.perror "Can't create HID interrupt channel",
      Event.close (l2cap_connect env src dst L2CAP_PSM_HIDP_CTRL
        (t ++ [Event.call_do_connect ctl src dst timeout])).1, Event.close ctl], ?_, ?_⟩
    · rw [h2]
      simp
    · intro e he
      simp only [List.mem_append, List.mem_cons, List.mem_singleton, List.not_mem_nil,
        or_false] at he
      rcases he with (he | he) | rfl | rfl | rfl
      · exact q1 e he
      · exact q2 e he
      · rfl
      · rfl
      · rfl
  · rw [h3]
    refine ⟨e1 ++ e2 ++ e3 ++ [Event.fprintf_stderr "HID create error %d (%s)\n"
        [Arg.int (env.errno (t ++ [Event.call_do_connect ctl src dst timeout] ++ e1 ++ e2 ++ e3)),
         Arg.strerror
          (env.errno (t ++ [Event.call_do_connect ctl src dst timeout] ++ e1 ++ e2 ++ e3))],
      Event.close (l2cap_connect env src dst L2CAP_PSM_HIDP_INTR
        (l2cap_connect env src dst L2CAP_PSM_HIDP_CTRL
          (t ++ [Event.call_do_connect ctl src dst timeout])).2).1,
      Event.sleep 1,
      Event.close (l2cap_connect env src dst L2CAP_PSM_HIDP_CTRL
        (t ++ [Event.call_do_connect ctl src dst timeout])).1,
      Event.close ctl], by simp, ?_⟩
    intro e he
    simp only [List.mem_append, List.mem_cons, List.mem_singleton, List.not_mem_nil,
      or_false] at he
    rcases he with ((he | he) | he) | rfl | rfl | rfl | rfl | rfl
    · exact q1 e he
    · exact q2 e he
    · exact q3 e he
    · rfl
    · rfl
    · rfl
    · rfl
    · rfl
  · rw [h3]
    refine ⟨e1 ++ e2 ++ e3, by simp, ?_⟩
    intro e he
    simp only [List.mem_append] at he
    rcases he with (he | he) | he
    · exact q1 e he
    · exact q2 e he
    · exact q3 e he

theorem do_connect_exits_iff_fails (env : Env) (ctl : Int) (src dst : bdaddr_t)
    (timeout : Int) (t : Trace) :
    ((do_connect env ctl src dst timeout t).1 = Outcome.exit 1 ↔
      do_connect_fails env ctl src dst timeout t) ∧
    ((do_connect env ctl src dst timeout t).1 = Outcome.ret () ↔
      ¬ do_connect_fails env ctl src dst timeout t) := by
  unfold do_connect do_connect_fails
  simp only []
  split_ifs with h1 h2 h3 <;> simp_all

theorem do_connect_exit_status (env : Env) (ctl : Int) (src dst : bdaddr_t) (timeout : Int)
    (t : Trace) (c : Int) (h : (do_connect env ctl src dst timeout t).1 = Outcome.exit c) :
    c = 1 := by
  unfold do_connect at h
  simp only [] at h
  split_ifs at h <;> exact (Outcome.exit.inj h).symm

theorem is_hid_class_eq (e : inquiry_info) :
    is_hid_class e = decide (e.dev_class 1 = 0x25 ∧ e.dev_class 2 = 0x00) := by
  rw [Bool.eq_iff_iff]
  simp [is_hid_class]

theorem hid_targets_cons_pos (e : inquiry_info) (l : List inquiry_info)
    (h : is_hid_class e = true) : hid_targets (e :: l) = e.bdaddr :: hid_targets l := by
  rw [is_hid_class_eq] at h
  simp only [hid_targets, List.filter_cons, h, if_true, if_false, List.map_cons,
    Bool.false_eq_true]

theorem hid_targets_cons_neg (e : inquiry_info) (l : List inquiry_info)
    (h : ¬ is_hid_class e = true) : hid_targets (e :: l) = hid_targets l := by
  rw [is_hid_class_eq] at h
  simp only [hid_targets, List.filter_cons, h, if_false, Bool.false_eq_true]

theorem connect_targets_append (a b : Trace) :
    connect_targets (a ++ b) = connect_targets a ++ connect_targets b := by
  simp [connect_targets, List.filterMap_append]

theorem connect_targets_cons_call (ctl : Int) (src dst : bdaddr_t) (timeout : Int)
    (l : Trace) :
    connect_targets (Event.call_do_connect ctl src dst timeout :: l) =
      dst :: connect_targets l := by
  simp [connect_targets]

theorem connect_targets_cons_printf (fmt : String) (args : List Arg) (l : Trace) :
    connect_targets (Event.printf fmt args :: l) = connect_targets l := by
  simp [connect_targets]

theorem connect_targets_attempt_events (evs : Trace)
    (h : ∀ e ∈ evs, is_attempt_event e = true) : connect_targets evs = [] := by
  induction evs with
  | nil => rfl
  | cons e rest ih =>
    have he := h e (List.mem_cons_self e rest)
    have hr := ih fun x hx => h x (List.mem_cons_of_mem e hx)
    cases e <;> first
      | exact absurd he Bool.false_ne_true
      | simpa [connect_targets] using hr

theorem attempt_event_search_loop (e : Event)
    (h : is_attempt_event e = true) : is_search_loop_event e = true := by
  cases e <;> first | exact h | exact absurd h Bool.false_ne_true

theorem do_search_loop_spec (env : Env) (ctl : Int) (src : bdaddr_t) (timeout : Int)
    (l : List inquiry_info) :
    ∀ t, ∃ evs, (do_search_loop env ctl src timeout l t).2 = t ++ evs ∧
      (∀ e ∈ evs, is_search_loop_event e = true) ∧
      connect_targets evs <+: hid_targets l ∧
      ((do_search_loop env ctl src timeout l t).1 = Outcome.ret () →
        connect_targets evs = hid_targets l) ∧
      (∀ c, (do_search_loop env ctl src timeout l t).1 = Outcome.exit c → c = 1) := by
  induction l with
  | nil =>
    intro t
    exact ⟨[], by simp [do_search_loop], by simp, List.nil_prefix,
      fun _ => rfl, fun c h => by simp [do_search_loop] at h⟩
  | cons e rest ih =>
    intro t
    by_cases hq : is_hid_class e = true
    · obtain ⟨evs1, h1, p1⟩ := do_connect_events env ctl src e.bdaddr timeout
        (t ++ [Event.printf "\tConnecting to device %s\n" [Arg.bda e.bdaddr]])
      have hx := do_connect_exit_status env ctl src e.bdaddr timeout
        (t ++ [Event.printf "\tConnecting to device %s\n" [Arg.bda e.bdaddr]])
      have ht1 : connect_targets evs1 = [] := connect_targets_attempt_events evs1 p1
      rw [hid_targets_cons_pos e rest hq]
      rcases hd : do_connect env ctl src e.bdaddr timeout
        (t ++ [Event.printf "\tConnecting to device %s\n" [Arg.bda e.bdaddr]]) with ⟨o, t2⟩
      rw [hd] at h1 hx
      simp only [] at h1 hx
      cases o with
      | ret u =>
        obtain ⟨evs2, h2, p2, pre2, eq2, ex2⟩ := ih t2
        have hl : do_search_loop env ctl src timeout (e :: rest) t =
            do_search_loop env ctl src timeout rest t2 := by
          simp only [do_search_loop, hq, if_true, hd]
        rw [hl]
        refine ⟨Event.printf "\tConnecting to device %s\n" [Arg.bda e.bdaddr] ::
          Event.call_do_connect ctl src e.bdaddr timeout :: (evs1 ++ evs2), ?_, ?_, ?_, ?_, ex2⟩
        · rw [h2, h1]
          simp
        · intro x hx'
          simp only [List.mem_cons, List.mem_append] at hx'
          rcases hx' with rfl | rfl | hx' | hx'
          · rfl
          · rfl
          · exact attempt_event_search_loop x (p1 x hx')
          · exact p2 x hx'
        · have : connect_targets (Event.printf "\tConnecting to device %s\n" [Arg.bda e.bdaddr] ::
              Event.call_do_connect ctl src e.bdaddr timeout :: (evs1 ++ evs2)) =
              e.bdaddr :: connect_targets evs2 := by
            rw [connect_targets_cons_printf, connect_targets_cons_call, connect_targets_append,
              ht1, List.nil_append]
          rw [this]
          exact (List.prefix_cons_inj e.bdaddr).mpr pre2
        · intro hr
          have : connect_targets (Event.printf "\tConnecting to device %s\n" [Arg.bda e.bdaddr] ::
              Event.call_do_connect ctl src e.bdaddr timeout :: (evs1 ++ evs2)) =
              e.bdaddr :: connect_targets evs2 := by
            rw [connect_targets_cons_printf, connect_targets_cons_call, connect_targets_append,
              ht1, List.nil_append]
          rw [this, eq2 hr]
      | exit c =>
        have hl : do_search_loop env ctl src timeout (e :: rest) t = (Outcome.exit c, t2) := by
          simp only [do_search_loop, hq, if_true, hd]
        rw [hl]
        refine ⟨Event.printf "\tConnecting to device %s\n" [Arg.bda e.bdaddr] ::
          Event.call_do_connect ctl src e.bdaddr timeout :: evs1, ?_, ?_, ?_, ?_, ?_⟩
        · rw [h1]
          simp
        · intro x hx'
          simp only [List.mem_cons] at hx'
          rcases hx' with rfl | rfl | hx'
          · rfl
          · rfl
          · exact attempt_event_search_loop x (p1 x hx')
        · have : connect_targets (Event.printf "\tConnecting to device %s\n" [Arg.bda e.bdaddr] ::
              Event.call_do_connect ctl src e.bdaddr timeout :: evs1) = [e.bdaddr] := by
            rw [connect_targets_cons_printf, connect_targets_cons_call, ht1]
          rw [this]
          exact (List.prefix_cons_inj e.bdaddr).mpr List.nil_prefix
        · intro hr
          exact Outcome.noConfusion hr
        · intro c' hc'
          exact hx c' hc'
    · obtain ⟨evs2, h2, p2, pre2, eq2, ex2⟩ := ih t
      have hl : do_search_loop env ctl src timeout (e :: rest) t =
          do_search_loop env ctl src timeout rest t := by
        simp only [do_search_loop, hq]
        rfl
      rw [hl, hid_targets_cons_neg e rest hq]
      exact ⟨evs2, h2, p2, pre2, eq2, ex2⟩

theorem do_search_inquiry_events (env : Env) (bdaddr : bdaddr_t) (t : Trace) :
    ∃ evs, (do_search_inquiry env bdaddr t).2.2.2 = t ++ evs ∧
      ∀ e ∈ evs, is_inquiry_event e = true := by
  unfold do_search_inquiry do_search_route
  simp only []
  split_ifs
  · exact ⟨[Event.hci_devid bdaddr, Event.hci_get_route,
      Event.hci_devba (env.hci_get_route (t ++ [Event.hci_devid bdaddr])),
      Event.printf "Searching ...\n" [],
      Event.hci_inquiry (env.hci_get_route (t ++ [Event.hci_devid bdaddr])) 8 0 0],
      by simp, by simp [is_inquiry_event]⟩
  · exact ⟨[Event.hci_devid bdaddr, Event.printf "Searching ...\n" [],
      Event.hci_inquiry (env.hci_devid t bdaddr) 8 0 0],
      by simp, by simp [is_inquiry_event]⟩

theorem connect_targets_inquiry_events (evs : Trace)
    (h : ∀ e ∈ evs, is_inquiry_event e = true) : connect_targets evs = [] := by
  induction evs with
  | nil => rfl
  | cons e rest ih =>
    have he := h e (List.mem_cons_self e rest)
    have hr := ih fun x hx => h x (List.mem_cons_of_mem e hx)
    cases e <;> first
      | exact absurd he Bool.false_ne_true
      | simpa [connect_targets] using hr

/-- The three ways `do_search` ends, given how its loop ended. -/
theorem do_search_spec (env : Env) (ctl : Int) (bdaddr : bdaddr_t) (timeout : Int)
    (t : Trace) :
    ∃ pre evs post,
      (do_search_inquiry env bdaddr t).2.2.2 = t ++ pre ∧
      (∀ e ∈ pre, is_inquiry_event e = true) ∧
      (do_search_loop env ctl (do_search_inquiry env bdaddr t).2.2.1 timeout
        (scan_results (do_search_inquiry env bdaddr t).1 (do_search_inquiry env bdaddr t).2.1)
        (do_search_inquiry env bdaddr t).2.2.2).2 = t ++ pre ++ evs ∧
      (∀ e ∈ evs, is_search_loop_event e = true) ∧
      (do_search env ctl bdaddr timeout t).2 = t ++ pre ++ evs ++ post ∧
      connect_targets evs <+: hid_targets
        (scan_results (do_search_inquiry env bdaddr t).1 (do_search_inquiry env bdaddr t).2.1) ∧
      ((do_search_loop env ctl (do_search_inquiry env bdaddr t).2.2.1 timeout
        (scan_results (do_search_inquiry env bdaddr t).1 (do_search_inquiry env bdaddr t).2.1)
        (do_search_inquiry env bdaddr t).2.2.2).1 = Outcome.ret () →
        connect_targets evs = hid_targets
          (scan_results (do_search_inquiry env bdaddr t).1
            (do_search_inquiry env bdaddr t).2.1)) ∧
      (((do_search_loop env ctl (do_search_inquiry env bdaddr t).2.2.1 timeout
          (scan_results (do_search_inquiry env bdaddr t).1 (do_search_inquiry env bdaddr t).2.1)
          (do_search_inquiry env bdaddr t).2.2.2).1 = Outcome.ret () ∧
          (do_search_inquiry env bdaddr t).1 = 0 ∧
          post = [Event.free_info, no_devices_report, Event.close ctl] ∧
          (do_search env ctl bdaddr timeout t).1 = Outcome.exit 1) ∨
        ((do_search_loop env ctl (do_search_inquiry env bdaddr t).2.2.1 timeout
          (scan_results (do_search_inquiry env bdaddr t).1 (do_search_inquiry env bdaddr t).2.1)
          (do_search_inquiry env bdaddr t).2.2.2).1 = Outcome.ret () ∧
          (do_search_inquiry env bdaddr t).1 ≠ 0 ∧
          post = [Event.free_info] ∧
          (do_search env ctl bdaddr timeout t).1 = Outcome.ret ()) ∨
        ((do_search_loop env ctl (do_search_inquiry env bdaddr t).2.2.1 timeout
          (scan_results (do_search_inquiry env bdaddr t).1 (do_search_inquiry env bdaddr t).2.1)
          (do_search_inquiry env bdaddr t).2.2.2).1 = Outcome.exit 1 ∧
          post = [] ∧
          (do_search env ctl bdaddr timeout t).1 = Outcome.exit 1)) := by
  obtain ⟨pre, hpre, ppre⟩ := do_search_inquiry_events env bdaddr t
  obtain ⟨evs, hevs, pevs, hpfx, heq, hex⟩ := do_search_loop_spec env ctl
    (do_search_inquiry env bdaddr t).2.2.1 timeout
    (scan_results (do_search_inquiry env bdaddr t).1 (do_search_inquiry env bdaddr t).2.1)
    (do_search_inquiry env bdaddr t).2.2.2
  rw [hpre] at hevs
  unfold do_search
  simp only []
  rcases hl : do_search_loop env ctl (do_search_inquiry env bdaddr t).2.2.1 timeout
    (scan_results (do_search_inquiry env bdaddr t).1 (do_search_inquiry env bdaddr t).2.1)
    (do_search_inquiry env bdaddr t).2.2.2 with ⟨o, tl⟩
  rw [hl] at heq hex
  have hevs' : tl = t ++ pre ++ evs := by
    have := hevs
    rw [hpre] at hl
    rw [hl] at this
    exact this
  simp only [] at heq hex
  cases o with
  | ret u =>
    by_cases h0 : (do_search_inquiry env bdaddr t).1 = 0
    · refine ⟨pre, evs, [Event.free_info, no_devices_report, Event.close ctl],
        hpre, ppre, hevs', pevs, ?_, hpfx, heq, Or.inl ⟨rfl, h0, rfl, ?_⟩⟩
      · simp only [if_pos h0, hevs', no_devices_report, List.append_assoc, List.cons_append,
          List.nil_append]
      · simp only [if_pos h0]
    · refine ⟨pre, evs, [Event.free_info],
        hpre, ppre, hevs', pevs, ?_, hpfx, heq, Or.inr (Or.inl ⟨rfl, h0, rfl, ?_⟩)⟩
      · simp only [if_neg h0, hevs']
      · simp only [if_neg h0]
  | exit c =>
    have hc : c = 1 := hex c rfl
    subst hc
    exact ⟨pre, evs, [], hpre, ppre, hevs', pevs, by simp only [hevs', List.append_nil],
      hpfx, heq, Or.inr (Or.inr ⟨rfl, rfl, rfl⟩)⟩

/-- C7: when the inquiry returns no response (`num_rsp == 0`), `do_search`
frees the response array, reports the failure, closes the driver control
socket and exits with status 1; `do_connect`, `l2cap_connect` and
`create_device` are never invoked. -/
theorem do_search_no_results (env : Env) (ctl : Int) (bdaddr : bdaddr_t) (timeout : Int)
    (t : Trace) (h0 : (do_search_inquiry env bdaddr t).1 = 0) :
    do_search env ctl bdaddr timeout t =
      (Outcome.exit 1, (do_search_inquiry env bdaddr t).2.2.2 ++
        [Event.free_info, no_devices_report, Event.close ctl]) ∧
    ∀ e ∈ new_events t (do_search env ctl bdaddr timeout t).2, is_attempt_call e = false := by
  have hd : do_search env ctl bdaddr timeout t =
      (Outcome.exit 1, (do_search_inquiry env bdaddr t).2.2.2 ++
        [Event.free_info, no_devices_report, Event.close ctl]) := by
    unfold do_search
    simp only [h0, scan_results, Int.toNat_zero, List.range_zero, List.map_nil, do_search_loop,
      if_true, no_devices_report, List.append_assoc, List.cons_append, List.nil_append]
  refine ⟨hd, ?_⟩
  obtain ⟨pre, hpre, ppre⟩ := do_search_inquiry_events env bdaddr t
  rw [hd, hpre]
  intro e he
  simp only [new_events, List.append_assoc, List.drop_left, List.mem_append, List.mem_cons,
    List.mem_singleton, List.not_mem_nil, or_false] at he
  rcases he with he | rfl | rfl | rfl
  · have := ppre e he
    cases e <;> first | rfl | exact absurd this Bool.false_ne_true
  · rfl
  · rfl
  · rfl

/-- Witness for C7: an inquiry without responses. -/
theorem do_search_no_results_witness :
    do_search env_ok 3 ⟨1⟩ 30 [] =
      (Outcome.exit 1,
        [Event.hci_devid ⟨1⟩, Event.printf "Searching ...\n" [], Event.hci_inquiry 0 8 0 0,
         Event.free_info, Event.fprintf_stderr "\tNo devices in range or visible\n" [],
         Event.close 3]) :=
  (do_search_no_results env_ok 3 ⟨1⟩ 30 [] (by decide)).1

theorem do_search_loop_append (env : Env) (ctl : Int) (src : bdaddr_t) (timeout : Int)
    (pre l : List inquiry_info) :
    ∀ t, (do_search_loop env ctl src timeout pre t).1 = Outcome.ret () →
      do_search_loop env ctl src timeout (pre ++ l) t =
        do_search_loop env ctl src timeout l (do_search_loop env ctl src timeout pre t).2 := by
  induction pre with
  | nil =>
    intro t _
    simp only [List.nil_append, do_search_loop]
  | cons x xs ih =>
    intro t h
    by_cases hx : is_hid_class x = true
    · rcases hd : do_connect env ctl src x.bdaddr timeout
        (t ++ [Event.printf "\tConnecting to device %s\n" [Arg.bda x.bdaddr]]) with ⟨o, t2⟩
      cases o with
      | ret u =>
        have e1 : do_search_loop env ctl src timeout (x :: xs) t =
            do_search_loop env ctl src timeout xs t2 := by
          simp only [do_search_loop, hx, if_true, hd]
        have e2 : do_search_loop env ctl src timeout (x :: (xs ++ l)) t =
            do_search_loop env ctl src timeout (xs ++ l) t2 := by
          simp only [do_search_loop, hx, if_true, hd]
        rw [e1] at h ⊢
        rw [List.cons_append, e2]
        exact ih t2 h
      | exit c =>
        have e1 : do_search_loop env ctl src timeout (x :: xs) t = (Outcome.exit c, t2) := by
          simp only [do_search_loop, hx, if_true, hd]
        rw [e1] at h
        exact Outcome.noConfusion h
    · have e1 : do_search_loop env ctl src timeout (x :: xs) t =
          do_search_loop env ctl src timeout xs t := by
        simp only [do_search_loop, hx]
        rfl
      have e2 : do_search_loop env ctl src timeout (x :: (xs ++ l)) t =
          do_search_loop env ctl src timeout (xs ++ l) t := by
        simp only [do_search_loop, hx]
        rfl
      rw [e1] at h ⊢
      rw [List.cons_append, e2]
      exact ih t h

theorem do_search_loop_cons_failed (env : Env) (ctl : Int) (src : bdaddr_t) (timeout : Int)
    (e : inquiry_info) (post : List inquiry_info) (t : Trace)
    (hq : is_hid_class e = true)
    (hfail : (do_connect env ctl src e.bdaddr timeout
      (t ++ [Event.printf "\tConnecting to device %s\n" [Arg.bda e.bdaddr]])).1 ≠
        Outcome.ret ()) :
    do_search_loop env ctl src timeout (e :: post) t =
      (Outcome.exit 1, (do_connect env ctl src e.bdaddr timeout
        (t ++ [Event.printf "\tConnecting to device %s\n" [Arg.bda e.bdaddr]])).2) := by
  have hx := do_connect_exit_status env ctl src e.bdaddr timeout
    (t ++ [Event.printf "\tConnecting to device %s\n" [Arg.bda e.bdaddr]])
  rcases hd : do_connect env ctl src e.bdaddr timeout
    (t ++ [Event.printf "\tConnecting to device %s\n" [Arg.bda e.bdaddr]]) with ⟨o, t2⟩
  rw [hd] at hfail hx
  cases o with
  | ret u => exact absurd rfl hfail
  | exit c =>
    have hc : c = 1 := hx c rfl
    subst hc
    simp only [do_search_loop, hq, if_true, hd]

theorem do_search_of_loop_exit (env : Env) (ctl : Int) (bdaddr : bdaddr_t) (timeout : Int)
    (t tl : Trace) (c : Int)
    (h : do_search_loop env ctl (do_search_inquiry env bdaddr t).2.2.1 timeout
      (scan_results (do_search_inquiry env bdaddr t).1 (do_search_inquiry env bdaddr t).2.1)
      (do_search_inquiry env bdaddr t).2.2.2 = (Outcome.exit c, tl)) :
    do_search env ctl bdaddr timeout t = (Outcome.exit c, tl) := by
  unfold do_search
  simp only [h]

/-- C6 fails as stated: two devices of HID class are found, the connect to
the first fails, the process exits with status 1 and no attempt is made for
the second. -/
theorem do_search_aborts_after_failed_connect :
    hid_targets (scan_results (do_search_inquiry env_unreachable ⟨1⟩ []).1
      (do_search_inquiry env_unreachable ⟨1⟩ []).2.1) = [⟨0xA0⟩, ⟨0xA1⟩] ∧
    (do_connect env_unreachable 3 ⟨1⟩ ⟨0xA0⟩ 30
      ((do_search_inquiry env_unreachable ⟨1⟩ []).2.2.2 ++
        [Event.printf "\tConnecting to device %s\n" [Arg.bda ⟨0xA0⟩]])).1 = Outcome.exit 1 ∧
    (do_search env_unreachable 3 ⟨1⟩ 30 []).1 = Outcome.exit 1 ∧
    connect_targets (do_search env_unreachable 3 ⟨1⟩ 30 []).2 = [⟨0xA0⟩] ∧
    (⟨0xA1⟩ : bdaddr_t) ∉ connect_targets (do_search env_unreachable 3 ⟨1⟩ 30 []).2 := by
  decide

/-- C6 as amended: in discovery mode a connect failure for one candidate
aborts the scan.  When the scan results are `pre ++ e :: post`, the attempts
for the entries of `pre` all return, `e` is of HID class and the attempt for
`e` fails (its control `l2cap_connect`, its interrupt `l2cap_connect` or its
`create_device` returns a negative value), then `do_connect` exits with
status 1 and `do_search` ends there, with the trace of that `do_connect`: the
attempts made are those for the HID-class entries of `pre`, then the one for
`e`, and none is made for an entry of `post`. -/
theorem do_search_stops_at_failed_connect (env : Env) (ctl : Int) (bdaddr : bdaddr_t)
    (timeout : Int) (t : Trace) (pre post : List inquiry_info) (e : inquiry_info)
    (hres : scan_results (do_search_inquiry env bdaddr t).1
      (do_search_inquiry env bdaddr t).2.1 = pre ++ e :: post)
    (hq : is_hid_class e = true)
    (hpre : (do_search_loop env ctl (do_search_inquiry env bdaddr t).2.2.1 timeout pre
      (do_search_inquiry env bdaddr t).2.2.2).1 = Outcome.ret ())
    (hfail : do_connect_fails env ctl (do_search_inquiry env bdaddr t).2.2.1 e.bdaddr timeout
      ((do_search_loop env ctl (do_search_inquiry env bdaddr t).2.2.1 timeout pre
        (do_search_inquiry env bdaddr t).2.2.2).2 ++
        [Event.printf "\tConnecting to device %s\n" [Arg.bda e.bdaddr]])) :
    (do_connect env ctl (do_search_inquiry env bdaddr t).2.2.1 e.bdaddr timeout
      ((do_search_loop env ctl (do_search_inquiry env bdaddr t).2.2.1 timeout pre
        (do_search_inquiry env bdaddr t).2.2.2).2 ++
        [Event.printf "\tConnecting to device %s\n" [Arg.bda e.bdaddr]])).1 = Outcome.exit 1 ∧
    do_search env ctl bdaddr timeout t =
      (Outcome.exit 1,
        (do_connect env ctl (do_search_inquiry env bdaddr t).2.2.1 e.bdaddr timeout
          ((do_search_loop env ctl (do_search_inquiry env bdaddr t).2.2.1 timeout pre
            (do_search_inquiry env bdaddr t).2.2.2).2 ++
            [Event.printf "\tConnecting to device %s\n" [Arg.bda e.bdaddr]])).2) ∧
    connect_targets (new_events t (do_search env ctl bdaddr timeout t).2) =
      hid_targets pre ++ [e.bdaddr] := by
  have hexit := (do_connect_exits_iff_fails env ctl (do_search_inquiry env bdaddr t).2.2.1
    e.bdaddr timeout
    ((do_search_loop env ctl (do_search_inquiry env bdaddr t).2.2.1 timeout pre
      (do_search_inquiry env bdaddr t).2.2.2).2 ++
      [Event.printf "\tConnecting to device %s\n" [Arg.bda e.bdaddr]])).1.mpr hfail
  have hnret : (do_connect env ctl (do_search_inquiry env bdaddr t).2.2.1 e.bdaddr timeout
      ((do_search_loop env ctl (do_search_inquiry env bdaddr t).2.2.1 timeout pre
        (do_search_inquiry env bdaddr t).2.2.2).2 ++
        [Event.printf "\tConnecting to device %s\n" [Arg.bda e.bdaddr]])).1 ≠
      Outcome.ret () := by
    rw [hexit]
    exact fun h => Outcome.noConfusion h
  have hloop := do_search_loop_append env ctl (do_search_inquiry env bdaddr t).2.2.1 timeout
    pre (e :: post) (do_search_inquiry env bdaddr t).2.2.2 hpre
  rw [do_search_loop_cons_failed env ctl (do_search_inquiry env bdaddr t).2.2.1 timeout e post
    _ hq hnret, ← hres] at hloop
  have hd := do_search_of_loop_exit env ctl bdaddr timeout t _ 1 hloop
  refine ⟨hexit, hd, ?_⟩
  rw [hd]
  obtain ⟨ei, hei, pei⟩ := do_search_inquiry_events env bdaddr t
  obtain ⟨ep, hep, -, -, heq, -⟩ := do_search_loop_spec env ctl
    (do_search_inquiry env bdaddr t).2.2.1 timeout pre (do_search_inquiry env bdaddr t).2.2.2
  obtain ⟨ec, hec, pec⟩ := do_connect_events env ctl (do_search_inquiry env bdaddr t).2.2.1
    e.bdaddr timeout
    ((do_search_loop env ctl (do_search_inquiry env bdaddr t).2.2.1 timeout pre
      (do_search_inquiry env bdaddr t).2.2.2).2 ++
      [Event.printf "\tConnecting to device %s\n" [Arg.bda e.bdaddr]])
  simp only [] at hec ⊢
  rw [hec, hep, hei, new_events]
  simp only [List.append_assoc, List.drop_left, connect_targets_append]
  rw [connect_targets_inquiry_events ei pei, heq hpre, List.nil_append]
  simp only [List.cons_append, List.nil_append, connect_targets_cons_printf,
    connect_targets_cons_call, connect_targets_attempt_events ec pec]
  rfl

/-- Witness for C6 as amended: the control `l2cap_connect` to the first of
two HID-class devices fails, and the only attempt made is the one for that
device. -/
theorem do_search_stops_at_failed_connect_witness :
    connect_targets (new_events [] (do_search env_unreachable 3 ⟨1⟩ 30 []).2) = [⟨0xA0⟩] :=
  (do_search_stops_at_failed_connect env_unreachable 3 ⟨1⟩ 30 [] []
    [(do_search_inquiry env_unreachable ⟨1⟩ []).2.1 1]
    ((do_search_inquiry env_unreachable ⟨1⟩ []).2.1 0)
    rfl (by decide) (by decide) (Or.inl (by decide))).2.2

/-! ## `main` in discovery mode -/

/-- C10: in discovery mode, with the driver control socket `ctl` open, an
inquiry that fails (`num_rsp < 0`) makes `do_search` free the response array
and return normally without any pairing attempt and without reporting a
discovery failure, and `main` then closes `ctl` and exits with status 0; the
discovery failure of main.c:306-308 is reported only when `num_rsp` is
exactly 0. -/
theorem main_search_inquiry_failure (env : Env) (daemon timeout : Int) (bdaddr dev : bdaddr_t)
    (fuel : Nat) (t : Trace)
    (hctl : 0 ≤ env.socket t AF_BLUETOOTH SOCK_RAW BTPROTO_HIDP) :
    let ctl := env.socket t AF_BLUETOOTH SOCK_RAW BTPROTO_HIDP
    let t1 := t ++ [Event.socket AF_BLUETOOTH SOCK_RAW BTPROTO_HIDP]
    let q := do_search_inquiry env bdaddr t1
    (q.1 < 0 →
      do_search env ctl bdaddr timeout t1 = (Outcome.ret (), q.2.2.2 ++ [Event.free_info]) ∧
      main_after_options env 2 daemon timeout bdaddr dev fuel t =
        some (Outcome.exit 0, q.2.2.2 ++ [Event.free_info, Event.close ctl]) ∧
      ∀ e ∈ new_events t1 (do_search env ctl bdaddr timeout t1).2, is_attempt_call e = false) ∧
    (no_devices_report ∈ new_events t1 (do_search env ctl bdaddr timeout t1).2 → q.1 = 0) := by
  intro ctl t1 q
  constructor
  · intro hneg
    have hne : q.1 ≠ 0 := ne_of_lt hneg
    have hs : scan_results q.1 q.2.1 = [] := by
      simp only [scan_results, Int.toNat_of_nonpos (le_of_lt hneg), List.range_zero,
        List.map_nil]
    have hd : do_search env ctl bdaddr timeout t1 =
        (Outcome.ret (), q.2.2.2 ++ [Event.free_info]) := by
      unfold do_search
      simp only []
      have hs' : scan_results (do_search_inquiry env bdaddr t1).1
          (do_search_inquiry env bdaddr t1).2.1 = [] := hs
      have hne' : ¬ (do_search_inquiry env bdaddr t1).1 = 0 := hne
      rw [hs']
      simp only [do_search_loop, if_neg hne']
    refine ⟨hd, ?_, ?_⟩
    · unfold main_after_options
      simp only []
      rw [if_neg (not_lt.mpr hctl)]
      have hd' : do_search env (env.socket t AF_BLUETOOTH SOCK_RAW BTPROTO_HIDP) bdaddr timeout
          (t ++ [Event.socket AF_BLUETOOTH SOCK_RAW BTPROTO_HIDP]) =
          (Outcome.ret (), q.2.2.2 ++ [Event.free_info]) := hd
      simp only [show ¬ ((2 : Int) = 1) by decide, if_false, if_true, hd', List.append_assoc,
        List.cons_append, List.nil_append]
    · obtain ⟨pre, hpre, ppre⟩ := do_search_inquiry_events env bdaddr t1
      have hq2 : q.2.2.2 = t1 ++ pre := hpre
      rw [hd, hq2]
      intro e he
      simp only [new_events, List.append_assoc, List.drop_left, List.mem_append,
        List.mem_singleton] at he
      rcases he with he | rfl
      · have := ppre e he
        cases e <;> first | rfl | exact absurd this Bool.false_ne_true
      · rfl
  · intro hmem
    obtain ⟨pre, evs, post, -, ppre, -, pevs, hout, -, -, hend⟩ :=
      do_search_spec env ctl bdaddr timeout t1
    rw [hout] at hmem
    simp only [new_events, List.append_assoc, List.drop_left, List.mem_append] at hmem
    rcases hmem with hm | hm | hm
    · exact absurd (ppre _ hm) (by decide)
    · exact absurd (pevs _ hm) (by decide)
    · rcases hend with ⟨-, h0, -, -⟩ | ⟨-, -, hp, -⟩ | ⟨-, hp, -⟩
      · exact h0
      · rw [hp] at hm
        exact absurd hm (by decide)
      · rw [hp] at hm
        exact absurd hm (List.not_mem_nil _)

/-- Witness for C10: `hidd -s` with an inquiry that fails; no attempt is
made and the process exits with status 0 after closing the driver control
socket 3. -/
theorem main_search_inquiry_failure_witness :
    main env_inquiry_fails [Opt.s] 0 [] =
      some (Outcome.exit 0,
        [Event.socket AF_BLUETOOTH SOCK_RAW BTPROTO_HIDP,
         Event.hci_devid BDADDR_ANY, Event.printf "Searching ...\n" [],
         Event.hci_inquiry 0 8 0 0, Event.free_info, Event.close 3]) :=
  ((main_search_inquiry_failure env_inquiry_fails 1 30 BDADDR_ANY BDADDR_ANY 0 [] (by decide)).1
    (by decide)).2.1

end Hidd
